import Mathlib

/-!
Verification of the New Year countdown core (src/script.js).

Instants are modelled as integer milliseconds (the value of a JS `Date`):
`Int` where a difference of two instants appears, `Nat` for absolute
timestamps at or after the Unix epoch.  `Math.floor(a / b)` on integers with
a positive literal divisor is floor division, embedded as `Int.fdiv`; the
JavaScript `%` operator is the truncated remainder, embedded as `Int.tmod`.
-/

/-- Result of decomposing a millisecond duration, as returned by
`calculateTimeUnits` in script.js. -/
structure TimeUnits where
  days : Int
  hours : Int
  minutes : Int
  seconds : Int
deriving Repr, DecidableEq

/-- Embedding of `calculateTimeUnits` (script.js lines 84–96).  The local
names follow the source: `seconds` there is the total seconds, etc. -/
def calculateTimeUnits (milliseconds : Int) : TimeUnits :=
  let seconds := Int.fdiv milliseconds 1000
  let minutes := Int.fdiv seconds 60
  let hours := Int.fdiv minutes 60
  let days := Int.fdiv hours 24
  { days := days
    hours := Int.tmod hours 24
    minutes := Int.tmod minutes 60
    seconds := Int.tmod seconds 60 }

/-- Outcome of one tick of `updateCountdown`: either the countdown has
reached zero (`showCelebration` path) or it is still counting and carries
the decomposed time units passed to `updateDisplay`. -/
inductive TickResult where
  | Elapsed : TickResult
  | Counting : TimeUnits → TickResult
deriving Repr, DecidableEq

/-- Embedding of `updateCountdown` (script.js lines 59–77): computes
`timeDifference = targetDate - now`, returns `Elapsed` when it is ≤ 0 and
otherwise the `calculateTimeUnits` decomposition. -/
def updateCountdown (targetDate now : Int) : TickResult :=
  let timeDifference := targetDate - now
  if timeDifference ≤ 0 then
    TickResult.Elapsed
  else
    TickResult.Counting (calculateTimeUnits timeDifference)

/-- Embedding of JavaScript `String.prototype.padStart(targetLength, pad)`
for a single pad character: prepend copies of `pad` until the length is at
least `targetLength` (a no-op on strings already that long). -/
def padStart (s : String) (targetLength : Nat) (pad : Char) : String :=
  String.mk (List.replicate (targetLength - s.length) pad) ++ s

/-- Embedding of the local `formatNumber` arrow function in `updateDisplay`
(script.js line 104): `num.toString().padStart(2, '0')`. -/
def formatNumber (num : Int) : String :=
  padStart (toString num) 2 '0'

/-- The four text fields written by `updateDisplay`. -/
structure DisplayFields where
  days : String
  hours : String
  minutes : String
  seconds : String
deriving Repr, DecidableEq

/-- Embedding of `updateDisplay` (script.js lines 102–111): every one of the
four fields, days included, is passed through `formatNumber`. -/
def updateDisplay (timeUnits : TimeUnits) : DisplayFields :=
  { days := formatNumber timeUnits.days
    hours := formatNumber timeUnits.hours
    minutes := formatNumber timeUnits.minutes
    seconds := formatNumber timeUnits.seconds }

/-- Gregorian leap-year rule, as implemented by the host `Date` type. -/
def isLeapYear (y : Nat) : Bool :=
  (y % 4 == 0 && y % 100 != 0) || y % 400 == 0

/-- Number of days in calendar year `y`. -/
def daysInYear (y : Nat) : Nat :=
  if isLeapYear y then 366 else 365

/-- Days from the Unix epoch (1970-01-01) to January 1 of year `y`, for
years `y ≥ 1970` (0 for earlier years; the model only ranges over
timestamps at or after the epoch). -/
def daysToYearStart : Nat → Nat
  | 0 => 0
  | y + 1 => if y + 1 ≤ 1970 then 0 else daysToYearStart y + daysInYear y

/-- Milliseconds per day. -/
def msPerDay : Nat := 86400000

/-- Timestamp (ms since epoch) of `new Date(y, 0, 1, 0, 0, 0)`: midnight,
January 1 of year `y`. -/
def dateFromYear (y : Nat) : Nat := msPerDay * daysToYearStart y

/-- Largest year `y ≤ fuel` with `dateFromYear y ≤ t`, defaulting to 1970.
Helper for `getFullYear`. -/
def findYear (t : Nat) : Nat → Nat
  | 0 => 1970
  | y + 1 => if dateFromYear (y + 1) ≤ t then y + 1 else findYear t y

/-- Milliseconds in a non-leap year, used to bound the year search. -/
def msPerCommonYear : Nat := 31536000000

/-- Embedding of `Date.prototype.getFullYear` on the model: the calendar
year containing timestamp `t`. -/
def getFullYear (t : Nat) : Nat :=
  findYear t (1971 + t / msPerCommonYear)

/-- Embedding of `initializeCountdown` (script.js lines 22–43), returning
the pair (targetYear, targetDate).  The conditional reassignment of
`targetYear` is kept exactly as in the source. -/
def initializeCountdown (now : Nat) : Nat × Nat :=
  let currentYear := getFullYear now
  let targetYear := currentYear + 1
  let newYearThisYear := dateFromYear currentYear
  let targetYear := if newYearThisYear ≤ now then currentYear + 1 else targetYear
  (targetYear, dateFromYear targetYear)

/-- Reimplementation of the year-selection step that unconditionally
targets `currentYear + 1`, for comparison with `initializeCountdown`. -/
def initializeCountdownUncond (now : Nat) : Nat × Nat :=
  let targetYear := getFullYear now + 1
  (targetYear, dateFromYear targetYear)

/-! ### Helper lemmas -/

/-- On non-negative input every floor division and truncated remainder in
`calculateTimeUnits` agrees with mathematical (Euclidean) division, giving a
closed form for the four fields. -/
theorem calculateTimeUnits_eval (d : Int) (hd : 0 ≤ d) :
    calculateTimeUnits d =
      { days := d / 1000 / 60 / 60 / 24
        hours := d / 1000 / 60 / 60 % 24
        minutes := d / 1000 / 60 % 60
        seconds := d / 1000 % 60 } := by
  have hs : (0 : Int) ≤ d / 1000 := Int.ediv_nonneg hd (by norm_num)
  have hm : (0 : Int) ≤ d / 1000 / 60 := Int.ediv_nonneg hs (by norm_num)
  have hh : (0 : Int) ≤ d / 1000 / 60 / 60 := Int.ediv_nonneg hm (by norm_num)
  have e1 : Int.fdiv d 1000 = d / 1000 := Int.fdiv_eq_ediv _ (by norm_num)
  have e2 : Int.fdiv (d / 1000) 60 = d / 1000 / 60 := Int.fdiv_eq_ediv _ (by norm_num)
  have e3 : Int.fdiv (d / 1000 / 60) 60 = d / 1000 / 60 / 60 := Int.fdiv_eq_ediv _ (by norm_num)
  have e4 : Int.fdiv (d / 1000 / 60 / 60) 24 = d / 1000 / 60 / 60 / 24 :=
    Int.fdiv_eq_ediv _ (by norm_num)
  have m1 : Int.tmod (d / 1000 / 60 / 60) 24 = d / 1000 / 60 / 60 % 24 :=
    Int.tmod_eq_emod hh (by norm_num)
  have m2 : Int.tmod (d / 1000 / 60) 60 = d / 1000 / 60 % 60 :=
    Int.tmod_eq_emod hm (by norm_num)
  have m3 : Int.tmod (d / 1000) 60 = d / 1000 % 60 :=
    Int.tmod_eq_emod hs (by norm_num)
  simp only [calculateTimeUnits, e1, e2, e3, e4, m1, m2, m3]

/-- January 1, 1970 is the epoch itself. -/
theorem dateFromYear_1970 : dateFromYear 1970 = 0 := by decide


/-- Every calendar year has at least 365 days. -/
theorem daysInYear_ge (y : Nat) : 365 ≤ daysInYear y := by
  unfold daysInYear
  split <;> omega

/-- Unfolding equation of `daysToYearStart` past the epoch year. -/
theorem daysToYearStart_succ (y : Nat) (h : 1970 ≤ y) :
    daysToYearStart (y + 1) = daysToYearStart y + daysInYear y := by
  simp only [daysToYearStart]
  rw [if_neg (by omega)]

/-- Counting `m` years forward from 1970 accumulates at least `365 * m`
days. -/
theorem daysToYearStart_lower (m : Nat) : 365 * m ≤ daysToYearStart (1970 + m) := by
  induction m with
  | zero => omega
  | succ k ih =>
    have h1 : daysToYearStart (1970 + k + 1) = daysToYearStart (1970 + k) + daysInYear (1970 + k) :=
      daysToYearStart_succ (1970 + k) (by omega)
    have h2 := daysInYear_ge (1970 + k)
    have h3 : 1970 + (k + 1) = 1970 + k + 1 := by omega
    rw [h3, h1]
    omega

/-- The year found by `findYear` starts at or before `t`. -/
theorem findYear_start_le (t : Nat) : ∀ fuel, dateFromYear (findYear t fuel) ≤ t := by
  intro fuel
  induction fuel with
  | zero =>
    show dateFromYear 1970 ≤ t
    rw [dateFromYear_1970]
    exact Nat.zero_le t
  | succ y ih =>
    show dateFromYear (if dateFromYear (y + 1) ≤ t then y + 1 else findYear t y) ≤ t
    split
    · assumption
    · exact ih

/-- Every year strictly between the `findYear` result and the fuel bound
starts strictly after `t`. -/
theorem findYear_above (t : Nat) :
    ∀ fuel z, findYear t fuel < z → z ≤ fuel → t < dateFromYear z := by
  intro fuel
  induction fuel with
  | zero => intro z h1 h2; omega
  | succ y ih =>
    intro z h1 h2
    by_cases hc : dateFromYear (y + 1) ≤ t
    · exfalso
      have heq : findYear t (y + 1) = y + 1 := by
        show (if dateFromYear (y + 1) ≤ t then y + 1 else findYear t y) = y + 1
        rw [if_pos hc]
      omega
    · have hres : findYear t (y + 1) = findYear t y := by
        show (if dateFromYear (y + 1) ≤ t then y + 1 else findYear t y) = findYear t y
        rw [if_neg hc]
      rcases Nat.lt_or_ge z (y + 1) with hz | hz
      · exact ih z (hres ▸ h1) (by omega)
      · have hzy : z = y + 1 := by omega
        subst hzy
        omega

/-- The `findYear` result is bounded by the fuel or by the 1970 default. -/
theorem findYear_le (t : Nat) : ∀ fuel, findYear t fuel ≤ 1970 ∨ findYear t fuel ≤ fuel := by
  intro fuel
  induction fuel with
  | zero => left; show (1970 : Nat) ≤ 1970; omega
  | succ y ih =>
    show (if dateFromYear (y + 1) ≤ t then y + 1 else findYear t y) ≤ 1970 ∨
      (if dateFromYear (y + 1) ≤ t then y + 1 else findYear t y) ≤ y + 1
    split
    · right; omega
    · rcases ih with h | h
      · left; exact h
      · right; omega

/-- The search bound used by `getFullYear` starts strictly after `t`. -/
theorem dateFromYear_bound (t : Nat) :
    t < dateFromYear (1971 + t / msPerCommonYear) := by
  have hK : msPerCommonYear = 31536000000 := rfl
  have h5 : 1970 + (t / msPerCommonYear + 1) = 1971 + t / msPerCommonYear := by omega
  have h1 := daysToYearStart_lower (t / msPerCommonYear + 1)
  rw [h5] at h1
  have hgoal : dateFromYear (1971 + t / msPerCommonYear) =
      86400000 * daysToYearStart (1971 + t / msPerCommonYear) := rfl
  rw [hgoal, hK]
  rw [hK] at h1
  omega

/-- Characterisation of `getFullYear`: the year it returns starts at or
before `t`, and the next year starts strictly after `t`. -/
theorem getFullYear_correct (t : Nat) :
    dateFromYear (getFullYear t) ≤ t ∧ t < dateFromYear (getFullYear t + 1) := by
  have hbound := dateFromYear_bound t
  have hFdef : getFullYear t = findYear t (1971 + t / msPerCommonYear) := rfl
  obtain ⟨F, hF⟩ : ∃ F, F = 1971 + t / msPerCommonYear := ⟨_, rfl⟩
  rw [← hF] at hbound hFdef
  have hK : msPerCommonYear = 31536000000 := rfl
  rw [hK] at hF
  constructor
  · rw [hFdef]
    exact findYear_start_le t F
  · have hFge : 1971 ≤ F := by omega
    have hstep : findYear t F = findYear t (F - 1) := by
      obtain ⟨G, hG⟩ : ∃ G, F = G + 1 := ⟨F - 1, by omega⟩
      rw [hG]
      have hG1 : G + 1 - 1 = G := by omega
      rw [hG1]
      show (if dateFromYear (G + 1) ≤ t then G + 1 else findYear t G) = findYear t G
      rw [if_neg (by rw [← hG]; omega)]
    have hle := findYear_le t (F - 1)
    have hz : getFullYear t + 1 ≤ F := by
      rw [hFdef, hstep]
      rcases hle with h | h <;> omega
    have h1 : findYear t F < getFullYear t + 1 := by
      rw [hFdef]
      omega
    exact findYear_above t F (getFullYear t + 1) h1 hz

/-! ### Claims -/

/-- C1: for every strictly positive remaining duration in milliseconds,
`updateCountdown` decomposes it exactly by the integer-division chain
totalSeconds = ⌊remaining/1000⌋, totalMinutes = ⌊totalSeconds/60⌋,
totalHours = ⌊totalMinutes/60⌋, days = ⌊totalHours/24⌋,
hours = totalHours mod 24, minutes = totalMinutes mod 60,
seconds = totalSeconds mod 60, and returns the `Counting` result carrying
these four units. -/
theorem tick_decomposes_positive_remaining (targetDate now : Int)
    (h : 0 < targetDate - now) :
    updateCountdown targetDate now =
      TickResult.Counting
        { days := (targetDate - now) / 1000 / 60 / 60 / 24
          hours := (targetDate - now) / 1000 / 60 / 60 % 24
          minutes := (targetDate - now) / 1000 / 60 % 60
          seconds := (targetDate - now) / 1000 % 60 } := by
  simp only [updateCountdown]
  rw [if_neg (by omega)]
  rw [calculateTimeUnits_eval _ (le_of_lt h)]

/-- C1 witness: the spec's own test vector, 2024-06-15T12:00:00 against
2025-01-01T00:00:00, a remaining duration of 17236800000 ms, decomposes to
199 days, 12 hours, 0 minutes, 0 seconds. -/
theorem tick_decomposes_positive_remaining_witness :
    (0 : Int) < 17236800000 - 0 ∧
    updateCountdown 17236800000 0 =
      TickResult.Counting { days := 199, hours := 12, minutes := 0, seconds := 0 } := by
  refine ⟨by norm_num, ?_⟩
  rw [tick_decomposes_positive_remaining 17236800000 0 (by norm_num)]
  decide

/-- C2: for every non-negative millisecond duration `d`, the decomposition
reconstitutes: days·86400000 + hours·3600000 + minutes·60000 + seconds·1000
+ (d mod 1000) = d. -/
theorem decompose_roundtrip (d : Int) (hd : 0 ≤ d) :
    (calculateTimeUnits d).days * 86400000 + (calculateTimeUnits d).hours * 3600000 +
      (calculateTimeUnits d).minutes * 60000 + (calculateTimeUnits d).seconds * 1000 +
      d % 1000 = d := by
  rw [calculateTimeUnits_eval d hd]
  simp only
  omega

/-- C2 witness: the round-trip law evaluated at d = 90061234 ms
(1 day, 1 hour, 1 minute, 1 second, 234 ms). -/
theorem decompose_roundtrip_witness :
    (0 : Int) ≤ 90061234 ∧
    (calculateTimeUnits 90061234).days * 86400000 +
      (calculateTimeUnits 90061234).hours * 3600000 +
      (calculateTimeUnits 90061234).minutes * 60000 +
      (calculateTimeUnits 90061234).seconds * 1000 +
      (90061234 : Int) % 1000 = 90061234 :=
  ⟨by norm_num, decompose_roundtrip 90061234 (by norm_num)⟩

/-- C3: `updateCountdown` returns `Elapsed` exactly when
targetDate − now ≤ 0 and `Counting` otherwise; in particular it returns
`Elapsed` when now equals the target and when now is 1 ms after the target
(the boundary condition is ≤ 0, not < 0). -/
theorem tick_elapsed_boundary (targetDate now : Int) :
    (updateCountdown targetDate now = TickResult.Elapsed ↔ targetDate - now ≤ 0) ∧
    updateCountdown targetDate targetDate = TickResult.Elapsed ∧
    updateCountdown targetDate (targetDate + 1) = TickResult.Elapsed := by
  refine ⟨?_, ?_, ?_⟩
  · simp only [updateCountdown]
    split
    · rename_i hc
      exact iff_of_true rfl hc
    · rename_i hc
      exact iff_of_false (fun he => TickResult.noConfusion he) hc
  · simp only [updateCountdown]
    rw [if_pos (by omega)]
  · simp only [updateCountdown]
    rw [if_pos (by omega)]

/-- C5: for every non-negative millisecond duration the decomposition
satisfies hours ∈ [0,23], minutes ∈ [0,59], seconds ∈ [0,59] and days ≥ 0;
no upper bound is enforced on days, witnessed by days hitting every
non-negative value n at input 86400000·n. -/
theorem units_within_ranges (d n : Int) (hd : 0 ≤ d) (hn : 0 ≤ n) :
    (0 ≤ (calculateTimeUnits d).hours ∧ (calculateTimeUnits d).hours ≤ 23) ∧
    (0 ≤ (calculateTimeUnits d).minutes ∧ (calculateTimeUnits d).minutes ≤ 59) ∧
    (0 ≤ (calculateTimeUnits d).seconds ∧ (calculateTimeUnits d).seconds ≤ 59) ∧
    0 ≤ (calculateTimeUnits d).days ∧
    (calculateTimeUnits (86400000 * n)).days = n := by
  rw [calculateTimeUnits_eval d hd, calculateTimeUnits_eval (86400000 * n) (by positivity)]
  simp only
  refine ⟨⟨?_, ?_⟩, ⟨?_, ?_⟩, ⟨?_, ?_⟩, ?_, ?_⟩ <;> omega

/-- C5 witness: ranges at d = 123456789012 ms and unbounded days at
n = 500 (86400000·500 ms is exactly 500 days). -/
theorem units_within_ranges_witness :
    (0 : Int) ≤ 123456789012 ∧ (0 : Int) ≤ 500 ∧
    ((0 ≤ (calculateTimeUnits 123456789012).hours ∧
        (calculateTimeUnits 123456789012).hours ≤ 23) ∧
      (0 ≤ (calculateTimeUnits 123456789012).minutes ∧
        (calculateTimeUnits 123456789012).minutes ≤ 59) ∧
      (0 ≤ (calculateTimeUnits 123456789012).seconds ∧
        (calculateTimeUnits 123456789012).seconds ≤ 59) ∧
      0 ≤ (calculateTimeUnits 123456789012).days ∧
      (calculateTimeUnits (86400000 * 500)).days = 500) :=
  ⟨by norm_num, by norm_num, units_within_ranges 123456789012 500 (by norm_num) (by norm_num)⟩

/-- C6: for a fixed target, once one tick has returned `Elapsed`, every
subsequent tick whose `now` is at or after the target also returns
`Elapsed` — the COUNTING-to-ELAPSED transition never reverts. -/
theorem elapsed_is_one_way (targetDate now nowLater : Int)
    (_hobs : updateCountdown targetDate now = TickResult.Elapsed)
    (hlater : targetDate ≤ nowLater) :
    updateCountdown targetDate nowLater = TickResult.Elapsed := by
  simp only [updateCountdown]
  rw [if_pos (by omega)]

/-- C6 witness: target 0, a first elapsed tick at now = 0, a later tick at
now = 5000 still elapsed. -/
theorem elapsed_is_one_way_witness :
    updateCountdown 0 0 = TickResult.Elapsed ∧ (0 : Int) ≤ 5000 ∧
    updateCountdown 0 5000 = TickResult.Elapsed :=
  ⟨by decide, by norm_num, elapsed_is_one_way 0 0 5000 (by decide) (by norm_num)⟩

/-- C9: `updateCountdown` only ever invokes `calculateTimeUnits` with a
strictly positive argument: whenever a tick produces a `Counting` result,
the remaining duration was > 0 and the units are its decomposition, so the
negative-operand behaviour of floor division and remainder is unreachable
through the tick entry point. -/
theorem counting_implies_positive_remaining (targetDate now : Int) (u : TimeUnits)
    (h : updateCountdown targetDate now = TickResult.Counting u) :
    0 < targetDate - now ∧ u = calculateTimeUnits (targetDate - now) := by
  simp only [updateCountdown] at h
  split at h
  · exact TickResult.noConfusion h
  · rename_i hc
    refine ⟨by omega, ?_⟩
    injection h with h'
    exact h'.symm

/-- C9 witness: target 1000 and now 0 yield a `Counting` tick, with a
positive remaining duration of 1000 ms decomposed as 1 second. -/
theorem counting_implies_positive_remaining_witness :
    updateCountdown 1000 0 =
      TickResult.Counting { days := 0, hours := 0, minutes := 0, seconds := 1 } ∧
    (0 < (1000 : Int) - 0 ∧
      ({ days := 0, hours := 0, minutes := 0, seconds := 1 } : TimeUnits) =
        calculateTimeUnits (1000 - 0)) :=
  ⟨by decide,
    counting_implies_positive_remaining 1000 0
      { days := 0, hours := 0, minutes := 0, seconds := 1 } (by decide)⟩

/-- C10: during the final sub-second before the target (0 < d < 1000 ms)
the engine is still Counting yet all four units are zero. -/
theorem subsecond_counting_all_zero (d now : Int) (h0 : 0 < d) (h1 : d < 1000) :
    calculateTimeUnits d = { days := 0, hours := 0, minutes := 0, seconds := 0 } ∧
    updateCountdown (now + d) now =
      TickResult.Counting { days := 0, hours := 0, minutes := 0, seconds := 0 } := by
  have key : calculateTimeUnits d = { days := 0, hours := 0, minutes := 0, seconds := 0 } := by
    rw [calculateTimeUnits_eval d h0.le]
    have hz : d / 1000 = 0 := Int.ediv_eq_zero_of_lt h0.le h1
    simp [hz]
  refine ⟨key, ?_⟩
  simp only [updateCountdown]
  rw [if_neg (by omega)]
  have harg : now + d - now = d := by ring
  rw [harg, key]

/-- C10 witness: 500 ms before a target at instant 42 + 500, the tick is
still Counting with every unit zero. -/
theorem subsecond_counting_all_zero_witness :
    (0 : Int) < 500 ∧ (500 : Int) < 1000 ∧
    (calculateTimeUnits 500 = { days := 0, hours := 0, minutes := 0, seconds := 0 } ∧
      updateCountdown (42 + 500) 42 =
        TickResult.Counting { days := 0, hours := 0, minutes := 0, seconds := 0 }) :=
  ⟨by norm_num, by norm_num, subsecond_counting_all_zero 500 42 (by norm_num) (by norm_num)⟩

/-- C7: for every instant, `initializeCountdown` computes the target as
January 1, 00:00:00 of the current year plus one, and this target is always
strictly greater than the instant itself. -/
theorem target_is_next_jan1_and_future (now : Nat) :
    initializeCountdown now = (getFullYear now + 1, dateFromYear (getFullYear now + 1)) ∧
    now < (initializeCountdown now).2 := by
  have hinit : initializeCountdown now =
      (getFullYear now + 1, dateFromYear (getFullYear now + 1)) := by
    simp only [initializeCountdown, ite_self]
  refine ⟨hinit, ?_⟩
  rw [hinit]
  exact (getFullYear_correct now).2

/-- C8: the year-selection conditional in `initializeCountdown` is dead:
for every input instant it produces the same target year (current year + 1)
and the same target instant as the reimplementation that unconditionally
targets the next year. -/
theorem year_conditional_has_no_effect (now : Nat) :
    initializeCountdown now = initializeCountdownUncond now ∧
    (initializeCountdown now).1 = getFullYear now + 1 := by
  constructor
  · simp only [initializeCountdown, initializeCountdownUncond, ite_self]
  · simp only [initializeCountdown, ite_self]

/-- C4 counterexample: the claim says days is rendered unpadded for every
value of days, but `updateDisplay` zero-pads days exactly like the other
fields: at days = 5 it renders "05", not the unpadded numeral "5". -/
theorem display_days_padded_counterexample :
    (updateDisplay { days := 5, hours := 12, minutes := 34, seconds := 56 }).days = "05" ∧
    (updateDisplay { days := 5, hours := 12, minutes := 34, seconds := 56 }).days ≠
      toString (5 : Int) := by
  exact ⟨by decide, by decide⟩

/-- C4 amended: every one of the four display fields — days included — is
passed through the same zero-padding to width 2: each rendered field is the
decimal numeral left-padded with '0' to length max 2 (numeral length), so
padding is a no-op once the numeral already has two or more digits (days
still grows unbounded). -/
theorem display_pads_all_fields (u : TimeUnits) (n : Int) :
    (updateDisplay u).days = formatNumber u.days ∧
    (updateDisplay u).hours = formatNumber u.hours ∧
    (updateDisplay u).minutes = formatNumber u.minutes ∧
    (updateDisplay u).seconds = formatNumber u.seconds ∧
    (formatNumber n).length = max 2 (toString n).length := by
  refine ⟨rfl, rfl, rfl, rfl, ?_⟩
  show (String.mk (List.replicate (2 - (toString n).length) '0') ++ toString n).length =
    max 2 (toString n).length
  rw [String.length_append]
  have hmk : (String.mk (List.replicate (2 - (toString n).length) '0')).length =
      (List.replicate (2 - (toString n).length) '0').length := rfl
  rw [hmk, List.length_replicate]
  omega
